import Mathlib

/-!
Verification development for the `suitcase-dataexchange` repository.

Two subsystems are embedded shallowly:

* `Serializer` (from `src/suitcase/dataexchange/__init__.py`): a stateful
  document-stream exporter that writes image frames into a growable
  `/exchange/data` array inside an HDF5 file, extracts dark/white reference
  frames, and (at stop) trims the array and aligns a monitor series.
  The HDF5 file contents are modelled as explicit fields of a state record:
  a dataset along its leading axis is a `List` of frames, a frame is a
  rectangular `List (List Q)` matrix of rationals.  Each handler returns the
  updated state paired with `Option SerErr`; when an error is returned the
  state holds exactly the effects performed before the Python exception
  would have been raised (Python exceptions abort the handler but leave
  already-performed file writes in place).

* `Migration` (from `src/migrate.py`): a provenance-rewriting pass that
  mints shadow resources/datums and annotates events with a shadow
  timestamp field.  Python dicts carrying the documents' fields are
  modelled as association lists with insert-or-replace update semantics.
  The `uuid.uuid4()` call is external nondeterminism and is passed in as
  an explicit `fresh` argument.
-/

/-! ## Definitions -/

/-- Association-list lookup: the value stored for key `k`, modelling
Python `d[k]` / `d.get(k)`. -/
def dictGet {α : Type} (l : List (String × α)) (k : String) : Option α :=
  match l with
  | [] => none
  | (a, b) :: t => if a = k then some b else dictGet t k

/-- Association-list insert-or-replace, modelling Python `d[k] = v`. -/
def dictSet {α : Type} (l : List (String × α)) (k : String) (v : α) :
    List (String × α) :=
  match l with
  | [] => [(k, v)]
  | (a, b) :: t => if a = k then (k, v) :: t else (a, b) :: dictSet t k v

/-- A 2-D numpy array (one image frame): a list of rows of rationals. -/
abbrev Frame := List (List ℚ)

/-- A numpy array value written into an HDF5 dataset: either 2-D or 3-D.
`Serializer.event_page` writes a 2-D `np.mean(..., axis=0, keepdims=True)`
of the first event value into `/exchange/data_dark`; `Serializer.stop`
overwrites it with a 3-D one-frame stack.  We record the value assigned. -/
inductive NpVal where
  | arr2 (rows : Frame)
  | arr3 (frames : List Frame)
deriving DecidableEq

/-- `np.mean(f, axis=0)` for a 2-D array: the list of column means. -/
def colMeans (f : Frame) : List ℚ :=
  (List.transpose f).map (fun col => col.sum / (col.length : ℚ))

/-- Elementwise sum of two frames (`+` on 2-D numpy arrays). -/
def frameAdd (a b : Frame) : Frame :=
  List.zipWith (List.zipWith (· + ·)) a b

/-- Scale every entry of a frame by a rational. -/
def frameScale (c : ℚ) (a : Frame) : Frame :=
  a.map (List.map (fun x => c * x))

/-- `np.mean(stack, axis=0)` for a 3-D array: the elementwise mean frame. -/
def frameMean (fs : List Frame) : Frame :=
  match fs with
  | [] => []
  | f :: rest => frameScale (1 / ((rest.length + 1 : Nat) : ℚ)) (rest.foldl frameAdd f)

/-- The `event_page` write loop: for each event value `f` (a single frame,
per the descriptor's declared 2-D data-key shape), the dataset is resized
up by `c` rows and `dataset[-c:,:,:] = f` broadcasts the frame over the
`c` new rows. -/
def appendFrames (c : Nat) : List Frame → List Frame
  | [] => []
  | f :: rest => List.replicate c f ++ appendFrames c rest

/-- Python `l[-c:]` (for `c` a nonnegative int; `-0` is `0`, selecting
the whole list). -/
def tailSlice {α : Type} (l : List α) (c : Nat) : List α :=
  if c = 0 then l else l.drop (l.length - c)

/-- Python `del l[-c:]` (deleting the whole list when `c = 0` or
`c ≥ l.length`). -/
def delTail {α : Type} (l : List α) (c : Nat) : List α :=
  if c = 0 then [] else l.take (l.length - c)

/-- `defaultdict(lambda: 0)` lookup. -/
def lookupCount (m : List (String × Nat)) (k : String) : Nat :=
  (dictGet m k).getD 0

/-- `self._stream_count[k] += 1` on a `defaultdict(lambda: 0)`. -/
def bumpCount (m : List (String × Nat)) (k : String) : List (String × Nat) :=
  dictSet m k (lookupCount m k + 1)

/-- Python exceptions escaping a Serializer handler. -/
inductive SerErr where
  | keyError (k : String)
  | indexError
  | datasetExists (name : String)
  | negativeResize
  | attributeError (name : String)
deriving DecidableEq

/-- The Serializer's mutable state together with the contents of the
output HDF5 file.  Dataset fields record what has been written:
`data` is `/exchange/data` along its leading axis; `dataWhiteShape`,
`dataDarkShape` and `dataChunks` record the allocation parameters passed
to `create_dataset`; `dataDark` records the last value assigned to
`/exchange/data_dark` (nothing is assigned at allocation: `data=None`). -/
structure SState where
  chunkSize : Option Nat := none
  descBaseline : Option String := none
  descPrimary : Option String := none
  descMonitor : Option String := none
  imgShape : Option (List Nat) := none
  dataWhiteShape : Option (List Nat) := none
  dataDarkShape : Option (List Nat) := none
  dataChunks : Option (List Nat) := none
  dataAllocated : Bool := false
  thetaAllocated : Bool := false
  dataDark : Option NpVal := none
  data : List Frame := []
  theta : Option (List ℚ) := none
  baselineAdded : Bool := false
  xIni : Option ℚ := none
  yIni : Option ℚ := none
  zIni : Option ℚ := none
  rIni : Option ℚ := none
  streamCount : List (String × Nat) := []
  bufferedThetas : List ℚ := []
  thetaTimestamps : List ℚ := []
  imageTimestamps : List ℚ := []
deriving DecidableEq

def SState.init : SState := {}

/-- `start` document: the fields the Serializer reads. -/
structure StartDoc where
  uid : String := ""
  chunk_size : Nat := 0
deriving DecidableEq

/-- `descriptor` document: `name`, `uid`, and
`data_keys['Andor_image']['shape']` when the `Andor_image` key is
declared (`none` models the key being absent, a `KeyError` on access). -/
structure DescriptorDoc where
  name : String
  uid : String
  andorShape : Option (List Nat) := none
deriving DecidableEq

/-- `event_page` document: the `data` and `timestamps` columns the
Serializer reads.  A column the Python document lacks is the empty list
(indexing it raises, matching `KeyError`/`IndexError` on access of a
missing column's first element).  Each `Andor_image` event value is a
single 2-D frame, per the primary descriptor's declared data-key shape. -/
structure EventPageDoc where
  descriptor : String
  zps_sx : List ℚ := []
  zps_sy : List ℚ := []
  zps_sz : List ℚ := []
  zps_pi_r : List ℚ := []
  andorImages : List Frame := []
  andorTimestamps : List ℚ := []
  zpsPiRTimestamps : List ℚ := []
deriving DecidableEq

/-- `Serializer.start`: records the declared per-batch chunk length.
(The filename templating and file opening touch no state the claims
concern.) -/
def Serializer.start (s : SState) (doc : StartDoc) : SState × Option SerErr :=
  ({ s with chunkSize := some doc.chunk_size }, none)

/-- `Serializer.descriptor`: classifies the stream by its declared name
and, for `primary`, allocates `/exchange/data_white`, `/exchange/data_dark`
(2-D, shape `(shape[1], shape[0])`) and `/exchange/data` (zero rows,
HDF5 storage chunks `(5, *img_shape)` — the literal `5` in the source);
for `zps_pi_r_monitor`, allocates `/exchange/theta`.  `create_dataset`
on an existing name raises; the uid is recorded before any allocation,
matching the source's statement order. -/
def Serializer.descriptor (s : SState) (doc : DescriptorDoc) :
    SState × Option SerErr :=
  if doc.name = "baseline" then
    ({ s with descBaseline := some doc.uid }, none)
  else if doc.name = "primary" then
    let s1 := { s with descPrimary := some doc.uid }
    match doc.andorShape with
    | none => (s1, some (SerErr.keyError "Andor_image"))
    | some shape =>
      match shape.get? 1, shape.get? 0 with
      | some d1, some d0 =>
        let ishape := [d1, d0]
        let s2 := { s1 with imgShape := some ishape }
        if s2.dataAllocated then
          (s2, some (SerErr.datasetExists "/exchange/data_white"))
        else
          ({ s2 with dataWhiteShape := some ishape,
                     dataDarkShape := some ishape,
                     dataChunks := some (5 :: ishape),
                     dataAllocated := true,
                     data := [] }, none)
      | _, _ => (s1, some SerErr.indexError)
  else if doc.name = "zps_pi_r_monitor" then
    let s1 := { s with descMonitor := some doc.uid }
    if s1.thetaAllocated then
      (s1, some (SerErr.datasetExists "/exchange/theta"))
    else
      ({ s1 with thetaAllocated := true, theta := some [] }, none)
  else (s, none)

/-- `Serializer.event_page`: bumps the per-stream batch counter, then
dispatches on which stream the batch belongs to — the first baseline
batch writes the four `*_ini` scalars from index 0; a primary batch
writes its first event's column-mean into `data_dark` when it is the
stream's first batch, then appends the (remaining) event frames, each
grown-and-broadcast over `chunk_size` rows; a monitor batch extends the
in-memory theta buffers. -/
def Serializer.event_page (s0 : SState) (doc : EventPageDoc) :
    SState × Option SerErr :=
  let s := { s0 with streamCount := bumpCount s0.streamCount doc.descriptor }
  if s.baselineAdded = false ∧ s.descBaseline = some doc.descriptor then
    match doc.zps_sx.head?, doc.zps_sy.head?, doc.zps_sz.head?,
        doc.zps_pi_r.head? with
    | some x, some y, some z, some r =>
      if s.xIni.isSome then (s, some (SerErr.datasetExists "x_ini")) else
      let s1 := { s with xIni := some x }
      if s1.yIni.isSome then (s1, some (SerErr.datasetExists "y_ini")) else
      let s2 := { s1 with yIni := some y }
      if s2.zIni.isSome then (s2, some (SerErr.datasetExists "z_ini")) else
      let s3 := { s2 with zIni := some z }
      if s3.rIni.isSome then (s3, some (SerErr.datasetExists "r_ini")) else
      ({ s3 with rIni := some r, baselineAdded := true }, none)
    | _, _, _, _ => (s, some SerErr.indexError)
  else if s.descPrimary = some doc.descriptor then
    match s.chunkSize with
    | none => (s, some (SerErr.attributeError "_chunk_size"))
    | some c =>
      if lookupCount s.streamCount doc.descriptor = 1 then
        match doc.andorImages.head? with
        | none => (s, some SerErr.indexError)
        | some f0 =>
          if s.dataAllocated = false then
            (s, some (SerErr.keyError "/exchange/data_dark"))
          else
            let s1 := { s with dataDark := some (NpVal.arr2 [colMeans f0]) }
            ({ s1 with
                 data := s1.data ++ appendFrames c (doc.andorImages.drop 1),
                 imageTimestamps :=
                   s1.imageTimestamps ++ doc.andorTimestamps.drop 1 }, none)
      else
        if s.dataAllocated = false then
          (s, some (SerErr.keyError "/exchange/data"))
        else
          ({ s with data := s.data ++ appendFrames c doc.andorImages,
                    imageTimestamps :=
                      s.imageTimestamps ++ doc.andorTimestamps }, none)
  else if s.descMonitor = some doc.descriptor then
    ({ s with bufferedThetas := s.bufferedThetas ++ doc.zps_pi_r,
              thetaTimestamps := s.thetaTimestamps ++ doc.zpsPiRTimestamps },
      none)
  else (s, none)

/-- `Serializer.stop`: averages the last `chunk_size` rows of
`/exchange/data` into `data_dark`, shrinks the array by `2 * chunk_size`
rows from the tail and drops the matching trailing image timestamps —
then raises `AttributeError`, because the source reads
`self._buffered_theta` while `__init__` only ever assigns
`self._buffered_thetas`; the theta interpolation and write are never
reached. -/
def Serializer.stop (s : SState) : SState × Option SerErr :=
  if s.dataAllocated = false then (s, some (SerErr.keyError "/exchange/data"))
  else
    match s.chunkSize with
    | none => (s, some (SerErr.attributeError "_chunk_size"))
    | some c =>
      let white := tailSlice s.data c
      let s1 := { s with dataDark := some (NpVal.arr3 [frameMean white]) }
      if s1.data.length < 2 * c then (s1, some SerErr.negativeResize)
      else
        let s2 := { s1 with
                      data := s1.data.take (s1.data.length - 2 * c),
                      imageTimestamps := delTail s1.imageTimestamps (2 * c) }
        (s2, some (SerErr.attributeError "_buffered_theta"))

/-- The canonical documents delivered to the Serializer (the upstream
`DocumentRouter` normalizes single events into `event_page` form). -/
inductive SDoc where
  | start (doc : StartDoc)
  | descriptor (doc : DescriptorDoc)
  | event_page (doc : EventPageDoc)
  | stop
deriving DecidableEq

def SDoc.isStop : SDoc → Bool
  | SDoc.stop => true
  | _ => false

/-- Route one document to its handler, as `DocumentRouter.__call__` does. -/
def Serializer.handle (s : SState) : SDoc → SState × Option SerErr
  | SDoc.start doc => Serializer.start s doc
  | SDoc.descriptor doc => Serializer.descriptor s doc
  | SDoc.event_page doc => Serializer.event_page s doc
  | SDoc.stop => Serializer.stop s

/-- Feed a document sequence through a fresh Serializer; the first
uncaught Python exception aborts the loop, leaving the file as it was at
the point of the raise. -/
def Serializer.run (docs : List SDoc) : SState × Option SerErr :=
  docs.foldl
    (fun acc d =>
      match acc.2 with
      | some _ => acc
      | none => Serializer.handle acc.1 d)
    (SState.init, none)

/-- A constant 10 × 10 frame. -/
def cframe (k : ℚ) : Frame := List.replicate 10 (List.replicate 10 k)

/-- First primary page of scenario 1: five frames. -/
def s1page1 : EventPageDoc where
  descriptor := "d1"
  andorImages := [cframe 1, cframe 2, cframe 3, cframe 4, cframe 5]
  andorTimestamps := [1, 2, 3, 4, 5]

/-- Second primary page of scenario 1: five more frames. -/
def s1page2 : EventPageDoc where
  descriptor := "d1"
  andorImages := [cframe 6, cframe 7, cframe 8, cframe 9, cframe 10]
  andorTimestamps := [6, 7, 8, 9, 10]

/-- End-to-end scenario 1 of the spec: start with `chunk_size` 5, a
primary descriptor declaring `Andor_image` with shape `[10, 10]`, two
primary event pages of 5 frames each, then stop. -/
def scenario1 : List SDoc :=
  [ SDoc.start { uid := "r1", chunk_size := 5 },
    SDoc.descriptor { name := "primary", uid := "d1", andorShape := some [10, 10] },
    SDoc.event_page s1page1,
    SDoc.event_page s1page2,
    SDoc.stop ]

/-- Python exceptions escaping a Migration handler: `KeyError` from a
failed dict lookup (`UnknownResource` / `UnknownDatum` in the spec's
terms), `AssertionError` from `assert` (`MalformedResource`), and
`NotImplementedError` from `Migration.event_page`. -/
inductive MigErr where
  | keyError (k : String)
  | assertionError
  | notImplemented
deriving DecidableEq

/-- `Migration.__init__` state: the tracked field names and the two
mapping tables `new_res_uids` and `new_datum_ids`. -/
structure MigState where
  imageField : String
  timestampField : String
  newResUids : List (String × String) := []
  newDatumIds : List (String × String) := []
deriving DecidableEq

/-- A data key inside a descriptor's `data_keys` (its `shape` plus any
other entries, carried verbatim). -/
structure MDataKey where
  shape : List Nat := []
  extra : List (String × String) := []
deriving DecidableEq

/-- `descriptor` document as the Migration reads it. -/
structure MDescriptorDoc where
  data_keys : List (String × MDataKey) := []
  extra : List (String × String) := []
deriving DecidableEq

/-- `resource` document: `uid := none` models a document with no `uid`
key (the `assert 'uid' in doc` fails). `extra` carries the location
parameters and any other fields verbatim. -/
structure ResourceDoc where
  uid : Option String := none
  spec : String := ""
  extra : List (String × String) := []
deriving DecidableEq

/-- `datum_page` document: the referenced resource uid, the batched
datum ids, and any other fields carried verbatim. -/
structure DatumPageDoc where
  resource : String
  datum_id : List String := []
  extra : List (String × String) := []
deriving DecidableEq

/-- `event` document: its `data` mapping (unfilled external references
are datum-id strings) and its optional `filled` mapping. -/
structure EventDoc where
  data : List (String × String) := []
  filled : Option (List (String × Bool)) := none
  extra : List (String × String) := []
deriving DecidableEq

/-- `event_page` document (batched form); `Migration.event_page` raises
before reading any field. -/
structure MEventPageDoc where
  data : List (String × List String) := []
deriving DecidableEq

/-- `Migration.descriptor`: when `data_keys` has the tracked image
field, add under the timestamp field name a copy of that data key with
its shape truncated to `shape[:1]`, mutating the document in place;
otherwise (KeyError caught) return the document untouched. -/
def Migration.descriptor (s : MigState) (doc : MDescriptorDoc) :
    MDescriptorDoc :=
  match dictGet doc.data_keys s.imageField with
  | none => doc
  | some dk =>
    let dk1 := { dk with shape := dk.shape.take 1 }
    { doc with data_keys := dictSet doc.data_keys s.timestampField dk1 }

/-- `Migration.resource`: asserts the document has a `uid`, copies it,
mints a fresh uid (the `uuid.uuid4()` value is the explicit `fresh`
argument), records the original-uid → new-uid mapping, overwrites the
copy's `spec` with the fixed tag `AD_HDF5_TS`, and emits the copy.
Returns (new state, emitted copy); the original is left untouched. -/
def Migration.resource (s : MigState) (doc : ResourceDoc) (fresh : String) :
    Except MigErr (MigState × ResourceDoc) :=
  match doc.uid with
  | none => Except.error MigErr.assertionError
  | some u =>
    Except.ok ({ s with newResUids := dictSet s.newResUids u fresh },
      { doc with uid := some fresh, spec := "AD_HDF5_TS" })

/-- The new datum ids `f-string` list: entry `j` is `uid ++ "/" ++ j`,
counting from `i` (the loop's `enumerate` index). -/
def newIdList (uid : String) (i : Nat) : Nat → List String
  | 0 => []
  | n + 1 => (uid ++ "/" ++ toString i) :: newIdList uid (i + 1) n

/-- The loop body's mapping-table updates:
`self.new_datum_ids[datum_id] = f'{new_res_uid}/{i}'` for each original
datum id in order, `i` counting from the given start index. -/
def recordIds (m : List (String × String)) (uid : String) (i : Nat) :
    List String → List (String × String)
  | [] => m
  | d :: rest => recordIds (dictSet m d (uid ++ "/" ++ toString i)) uid (i + 1) rest

/-- `Migration.datum_page`: deep-copies the batch, looks up the shadow
resource uid (KeyError — `UnknownResource` — when the batch's resource
was never seen), rewrites every datum id of the copy to
`<shadow-resource-uid>/<within-batch-index>`, records every
original-id → new-id pair, and emits the copy.  Returns
(new state, emitted copy); the original is left untouched. -/
def Migration.datum_page (s : MigState) (doc : DatumPageDoc) :
    Except MigErr (MigState × DatumPageDoc) :=
  match dictGet s.newResUids doc.resource with
  | none => Except.error (MigErr.keyError doc.resource)
  | some newUid =>
    Except.ok ({ s with newDatumIds := recordIds s.newDatumIds newUid 0 doc.datum_id },
      { doc with datum_id := newIdList newUid 0 doc.datum_id.length })

/-- `Migration.event`: when the tracked image field is present in
`data`, look up the shadow datum id for its datum id (KeyError —
`UnknownDatum` — when never mapped), store it in place under the
timestamp field, and when the document carries a `filled` mapping mark
the timestamp field as not filled.  Returns the (mutated) document. -/
def Migration.event (s : MigState) (doc : EventDoc) : Except MigErr EventDoc :=
  match dictGet doc.data s.imageField with
  | none => Except.ok doc
  | some datumId =>
    match dictGet s.newDatumIds datumId with
    | none => Except.error (MigErr.keyError datumId)
    | some nd =>
      let doc1 := { doc with data := dictSet doc.data s.timestampField nd }
      match doc1.filled with
      | none => Except.ok doc1
      | some f =>
        Except.ok { doc1 with filled := some (dictSet f s.timestampField false) }

/-- `Migration.event_page`: `raise NotImplementedError`. -/
def Migration.event_page (_ : MigState) (_ : MEventPageDoc) :
    Except MigErr MEventPageDoc :=
  Except.error MigErr.notImplemented

/-- The document kinds the Migration's `__call__` dispatches on. -/
inductive MigDoc where
  | descriptor (doc : MDescriptorDoc)
  | resource (doc : ResourceDoc)
  | datum_page (doc : DatumPageDoc)
  | event (doc : EventDoc)
  | event_page (doc : MEventPageDoc)
deriving DecidableEq

/-- `Migration.__call__`: route the document to its handler (which may
mutate it in place and may emit a derived copy to the serializer), then
forward the — possibly mutated — document itself to the serializer.
The returned list is everything handed to the serializer, in call
order: the derived copy (when one is made) followed by the forwarded
document. -/
def Migration.call (s : MigState) (d : MigDoc) (fresh : String) :
    Except MigErr (MigState × List MigDoc) :=
  match d with
  | MigDoc.descriptor doc =>
    Except.ok (s, [MigDoc.descriptor (Migration.descriptor s doc)])
  | MigDoc.resource doc =>
    match Migration.resource s doc fresh with
    | Except.error e => Except.error e
    | Except.ok (s1, copy) =>
      Except.ok (s1, [MigDoc.resource copy, MigDoc.resource doc])
  | MigDoc.datum_page doc =>
    match Migration.datum_page s doc with
    | Except.error e => Except.error e
    | Except.ok (s1, copy) =>
      Except.ok (s1, [MigDoc.datum_page copy, MigDoc.datum_page doc])
  | MigDoc.event doc =>
    match Migration.event s doc with
    | Except.error e => Except.error e
    | Except.ok doc1 => Except.ok (s, [MigDoc.event doc1])
  | MigDoc.event_page doc =>
    match Migration.event_page s doc with
    | Except.error e => Except.error e
    | Except.ok doc1 => Except.ok (s, [MigDoc.event_page doc1])

/-- A Migration state as built by `migrate.py`'s `__main__` block, with
one resource (`"abc"`, shadowed by `"U"`) and its first two datums
already seen. -/
def mig0 : MigState where
  imageField := "Andor_image"
  timestampField := "Andor_timestamp"
  newResUids := [("abc", "U")]
  newDatumIds := [("abc/0", "U/0"), ("abc/1", "U/1")]

/-- A two-datum batch referencing the known resource `"abc"`. -/
def dp0 : DatumPageDoc where
  resource := "abc"
  datum_id := ["abc/0", "abc/1"]

/-- A batch referencing a resource uid never registered. -/
def dpUnknown : DatumPageDoc where
  resource := "zzz"
  datum_id := ["zzz/0"]

/-- An event whose tracked image field holds a known datum id. -/
def ev0 : EventDoc where
  data := [("Andor_image", "abc/0"), ("mono", "7")]
  filled := some [("Andor_image", false)]

/-- An event whose tracked image field holds a datum id never mapped. -/
def evUnknown : EventDoc where
  data := [("Andor_image", "nope/0")]

/-- A resource document with a uid, a spec, and location parameters. -/
def res0 : ResourceDoc where
  uid := some "abc"
  spec := "AD_HDF5"
  extra := [("root", "/nsls2/data"), ("resource_path", "f.h5")]

/-- A descriptor declaring the tracked image field. -/
def mdesc0 : MDescriptorDoc where
  data_keys := [("Andor_image", { shape := [5, 1080, 1280] })]

/-- A descriptor lacking the tracked image field. -/
def mdescPlain : MDescriptorDoc where
  data_keys := [("mono", { shape := [] })]

/-- A constant 2 × 2 frame. -/
def frame2 (k : ℚ) : Frame := List.replicate 2 (List.replicate 2 k)

/-- Primary page for scenario 2: four frames with timestamps. -/
def s2page : EventPageDoc where
  descriptor := "p1"
  andorImages := [frame2 1, frame2 2, frame2 3, frame2 4]
  andorTimestamps := [10, 11, 12, 13]

/-- Monitor page for scenario 2: two theta samples. -/
def s2monitorPage : EventPageDoc where
  descriptor := "m1"
  zps_pi_r := [3, 7]
  zpsPiRTimestamps := [10, 12]

/-- Scenario 2: a complete run with both a primary and a monitor
stream, reaching `stop` with data to trim and a buffered theta series
to interpolate. -/
def scenario2 : List SDoc :=
  [ SDoc.start { uid := "r2", chunk_size := 1 },
    SDoc.descriptor { name := "primary", uid := "p1", andorShape := some [2, 2] },
    SDoc.descriptor { name := "zps_pi_r_monitor", uid := "m1" },
    SDoc.event_page s2page,
    SDoc.event_page s2monitorPage,
    SDoc.stop ]

/-- A mid-run Serializer state used by the C4 witness: chunk size 1,
main array allocated holding three rows. -/
def sW : SState where
  chunkSize := some 1
  descPrimary := some "p1"
  dataAllocated := true
  data := [frame2 5, frame2 6, frame2 7]

/-- A baseline event page used by the C9 witness. -/
def blPage : EventPageDoc where
  descriptor := "b1"
  zps_sx := [11]
  zps_sy := [12]
  zps_sz := [13]
  zps_pi_r := [14]

/-- A fresh-state Serializer with only the baseline descriptor seen,
used by the C9 witness. -/
def sBase : SState where
  descBaseline := some "b1"

/-- The C9 witness state after the first baseline batch. -/
def sBaseDone : SState where
  descBaseline := some "b1"
  baselineAdded := true
  xIni := some 11
  yIni := some 12
  zIni := some 13
  rIni := some 14
  streamCount := [("b1", 1)]

/-- A `primary` descriptor document declaring `Andor_image` with the
given shape. -/
def primaryDescriptorDoc (u : String) (shape : List Nat) : DescriptorDoc :=
  { name := "primary", uid := u, andorShape := some shape }

/-- A mid-run state whose primary stream has already seen one batch,
used by the C8 witness. -/
def sp8 : SState where
  chunkSize := some 2
  descPrimary := some "p1"
  dataAllocated := true
  data := [frame2 9]
  streamCount := [("p1", 1)]

/-- An event-batch (event_page) document, as would be routed to
`Migration.event_page`. -/
def pgX : MEventPageDoc where
  data := [("Andor_image", ["abc/0"])]

/-! ## Theorems -/

theorem dictGet_dictSet_self {α : Type} (l : List (String × α)) (k : String)
    (v : α) : dictGet (dictSet l k v) k = some v := by
  induction l with
  | nil => simp [dictGet, dictSet]
  | cons p t ih =>
    obtain ⟨a, b⟩ := p
    by_cases h : a = k <;> simp [dictGet, dictSet, h, ih]

theorem dictGet_dictSet_ne {α : Type} (l : List (String × α)) (k k' : String)
    (v : α) (h : k' ≠ k) : dictGet (dictSet l k v) k' = dictGet l k' := by
  have hk : ¬(k = k') := fun hh => h hh.symm
  induction l with
  | nil => simp [dictGet, dictSet, hk]
  | cons p t ih =>
    obtain ⟨a, b⟩ := p
    by_cases ha : a = k
    · subst ha
      simp [dictGet, dictSet, hk]
    · simp [dictGet, dictSet, ha, ih]

theorem length_dictSet_of_absent {α : Type} (l : List (String × α))
    (k : String) (v : α) (h : dictGet l k = none) :
    (dictSet l k v).length = l.length + 1 := by
  induction l with
  | nil => simp [dictSet]
  | cons p t ih =>
    obtain ⟨a, b⟩ := p
    by_cases ha : a = k
    · simp [dictGet, ha] at h
    · simp [dictGet, dictSet, ha] at h ⊢
      exact ih h

theorem appendFrames_length (c : Nat) (l : List Frame) :
    (appendFrames c l).length = c * l.length := by
  induction l with
  | nil => simp [appendFrames]
  | cons f rest ih =>
    simp [appendFrames, ih, Nat.mul_succ, Nat.add_comm]

theorem lookupCount_bumpCount (m : List (String × Nat)) (k : String) :
    lookupCount (bumpCount m k) k = lookupCount m k + 1 := by
  simp [lookupCount, bumpCount, dictGet_dictSet_self]

theorem newIdList_length (uid : String) (i n : Nat) :
    (newIdList uid i n).length = n := by
  induction n generalizing i with
  | zero => simp [newIdList]
  | succ n ih => simp [newIdList, ih]

theorem newIdList_getD (uid : String) (i n j : Nat) (h : j < n) :
    (newIdList uid i n).getD j "" = uid ++ "/" ++ toString (i + j) := by
  induction n generalizing i j with
  | zero => omega
  | succ n ih =>
    cases j with
    | zero => simp [newIdList]
    | succ j =>
      have hj : j < n := by omega
      have := ih (i + 1) j hj
      simp only [newIdList, List.getD_cons_succ, this]
      have : i + 1 + j = i + (j + 1) := by omega
      rw [this]

theorem dictGet_recordIds_of_not_mem (m : List (String × String))
    (uid : String) (i : Nat) (ids : List String) (d : String)
    (h : d ∉ ids) : dictGet (recordIds m uid i ids) d = dictGet m d := by
  induction ids generalizing m i with
  | nil => simp [recordIds]
  | cons a rest ih =>
    have hd : d ≠ a := fun hh => h (hh ▸ List.mem_cons_self a rest)
    have hrest : d ∉ rest := fun hh => h (List.mem_cons_of_mem a hh)
    simp only [recordIds]
    rw [ih _ _ hrest, dictGet_dictSet_ne _ _ _ _ hd]

theorem dictGet_recordIds_nodup (m : List (String × String)) (uid : String)
    (i : Nat) (ids : List String) (j : Nat) (hnd : ids.Nodup)
    (h : j < ids.length) :
    dictGet (recordIds m uid i ids) (ids.getD j "") =
      some (uid ++ "/" ++ toString (i + j)) := by
  induction ids generalizing m i j with
  | nil => simp at h
  | cons a rest ih =>
    obtain ⟨hna, hnrest⟩ := List.nodup_cons.mp hnd
    cases j with
    | zero =>
      simp only [List.getD_cons_zero, recordIds]
      rw [dictGet_recordIds_of_not_mem _ _ _ _ _ hna,
        dictGet_dictSet_self, Nat.add_zero]
    | succ j =>
      have hj : j < rest.length := by simpa using h
      simp only [List.getD_cons_succ, recordIds]
      rw [ih _ _ _ hnrest hj]
      have : i + 1 + j = i + (j + 1) := by omega
      rw [this]

/-- Claim C2: for every datum_page whose resource uid was previously
registered, the Migration emits a deep-copied page whose datum id at
within-batch position `j` equals `<shadow-resource-uid>/<j>` for every
`j`, records the original-datum-id → new-datum-id mapping for every
entry (datum ids being unique), and a datum_page referencing a resource
uid never seen fails with a KeyError on that uid (the spec's
`UnknownResource`). -/
theorem c2_datum_page_shadow_ids (s : MigState) (doc : DatumPageDoc)
    (u : String) (h : dictGet s.newResUids doc.resource = some u) :
    Migration.datum_page s doc =
      Except.ok ({ s with newDatumIds := recordIds s.newDatumIds u 0 doc.datum_id },
        { doc with datum_id := newIdList u 0 doc.datum_id.length }) ∧
    (newIdList u 0 doc.datum_id.length).length = doc.datum_id.length ∧
    (∀ j, j < doc.datum_id.length →
      (newIdList u 0 doc.datum_id.length).getD j "" = u ++ "/" ++ toString j) ∧
    (doc.datum_id.Nodup → ∀ j, j < doc.datum_id.length →
      dictGet (recordIds s.newDatumIds u 0 doc.datum_id) (doc.datum_id.getD j "") =
        some (u ++ "/" ++ toString j)) ∧
    (∀ dp : DatumPageDoc, dictGet s.newResUids dp.resource = none →
      Migration.datum_page s dp = Except.error (MigErr.keyError dp.resource)) := by
  refine ⟨?_, newIdList_length u 0 _, ?_, ?_, ?_⟩
  · simp [Migration.datum_page, h]
  · intro j hj
    simpa using newIdList_getD u 0 _ j hj
  · intro hnd j hj
    simpa using dictGet_recordIds_nodup s.newDatumIds u 0 doc.datum_id j hnd hj
  · intro dp hdp
    simp [Migration.datum_page, hdp]

/-- Witness for C2 at a concrete state and batch. -/
theorem c2_datum_page_shadow_ids_witness :
    Migration.datum_page mig0 dp0 =
      Except.ok ({ mig0 with newDatumIds := recordIds mig0.newDatumIds "U" 0 dp0.datum_id },
        { dp0 with datum_id := newIdList "U" 0 dp0.datum_id.length }) ∧
    (newIdList "U" 0 dp0.datum_id.length).getD 1 "" = "U" ++ "/" ++ toString 1 ∧
    dictGet (recordIds mig0.newDatumIds "U" 0 dp0.datum_id) (dp0.datum_id.getD 1 "") =
      some ("U" ++ "/" ++ toString 1) ∧
    Migration.datum_page mig0 dpUnknown =
      Except.error (MigErr.keyError dpUnknown.resource) := by
  have h := c2_datum_page_shadow_ids mig0 dp0 "U" (by decide)
  exact ⟨h.1, h.2.2.1 1 (by decide), h.2.2.2.1 (by decide) 1 (by decide),
    h.2.2.2.2 dpUnknown (by decide)⟩

/-- Claim C6: an event whose tracked image field references a datum id
never recorded by any previously processed datum_page makes the
Migration fail with a KeyError on that datum id (the spec's
`UnknownDatum`) instead of forwarding the event. -/
theorem c6_unknown_datum (s : MigState) (doc : EventDoc) (d fresh : String)
    (h1 : dictGet doc.data s.imageField = some d)
    (h2 : dictGet s.newDatumIds d = none) :
    Migration.call s (MigDoc.event doc) fresh =
      Except.error (MigErr.keyError d) := by
  simp [Migration.call, Migration.event, h1, h2]

/-- Witness for C6 at a concrete unmapped datum id. -/
theorem c6_unknown_datum_witness :
    Migration.call mig0 (MigDoc.event evUnknown) "F" =
      Except.error (MigErr.keyError "nope/0") :=
  c6_unknown_datum mig0 evUnknown "nope/0" "F" (by decide) (by decide)

/-- Claim C7: processing a resource or datum_page leaves the original
document unchanged in every field — the shadow copy receives the fresh
uid (resources), the rewritten datum ids (datum pages) and the derived
kind tag `AD_HDF5_TS` (resources), while the original is forwarded to
the serializer exactly as it arrived (the second emitted document is
the input itself; all other fields of the copy are carried verbatim by
the structure update). -/
theorem c7_originals_preserved (s : MigState) (rdoc : ResourceDoc)
    (u fresh : String) (h : rdoc.uid = some u) :
    Migration.call s (MigDoc.resource rdoc) fresh =
      Except.ok ({ s with newResUids := dictSet s.newResUids u fresh },
        [MigDoc.resource { rdoc with uid := some fresh, spec := "AD_HDF5_TS" },
          MigDoc.resource rdoc]) ∧
    (∀ (dp : DatumPageDoc) (v : String),
      dictGet s.newResUids dp.resource = some v →
      Migration.call s (MigDoc.datum_page dp) fresh =
        Except.ok ({ s with newDatumIds := recordIds s.newDatumIds v 0 dp.datum_id },
          [MigDoc.datum_page { dp with datum_id := newIdList v 0 dp.datum_id.length },
            MigDoc.datum_page dp])) := by
  constructor
  · simp [Migration.call, Migration.resource, h]
  · intro dp v hv
    simp [Migration.call, Migration.datum_page, hv]

/-- Witness for C7 at a concrete resource and datum batch. -/
theorem c7_originals_preserved_witness :
    Migration.call mig0 (MigDoc.resource res0) "U2" =
      Except.ok ({ mig0 with newResUids := dictSet mig0.newResUids "abc" "U2" },
        [MigDoc.resource { res0 with uid := some "U2", spec := "AD_HDF5_TS" },
          MigDoc.resource res0]) ∧
    Migration.call mig0 (MigDoc.datum_page dp0) "U2" =
      Except.ok ({ mig0 with newDatumIds := recordIds mig0.newDatumIds "U" 0 dp0.datum_id },
        [MigDoc.datum_page { dp0 with datum_id := newIdList "U" 0 dp0.datum_id.length },
          MigDoc.datum_page dp0]) := by
  have h := c7_originals_preserved mig0 res0 "abc" "U2" (by decide)
  exact ⟨h.1, h.2 dp0 "U" (by decide)⟩

/-- Claim C10 (implicit): the Migration also rewrites descriptors — when
`data_keys` contains the tracked image field, the descriptor is mutated
in place, gaining under the timestamp field name a copy of the image
field's data key with its shape truncated to its first element
(`shape[:1]`), and the mutated document is what gets forwarded; a
descriptor lacking the image field is forwarded completely unchanged. -/
theorem c10_descriptor_shadow_key (s : MigState) (doc : MDescriptorDoc)
    (fresh : String) :
    (∀ dk, dictGet doc.data_keys s.imageField = some dk →
      Migration.call s (MigDoc.descriptor doc) fresh =
        Except.ok (s, [MigDoc.descriptor { doc with data_keys := dictSet doc.data_keys s.timestampField { dk with shape := dk.shape.take 1 } }])) ∧
    (dictGet doc.data_keys s.imageField = none →
      Migration.call s (MigDoc.descriptor doc) fresh =
        Except.ok (s, [MigDoc.descriptor doc])) := by
  constructor
  · intro dk hdk
    simp [Migration.call, Migration.descriptor, hdk]
  · intro hnone
    simp [Migration.call, Migration.descriptor, hnone]

/-- Witness for C10 at a concrete descriptor with and without the
tracked field. -/
theorem c10_descriptor_shadow_key_witness :
    Migration.call mig0 (MigDoc.descriptor mdesc0) "F" =
      Except.ok (mig0, [MigDoc.descriptor { mdesc0 with data_keys := dictSet mdesc0.data_keys "Andor_timestamp" { shape := [5], extra := [] } }]) ∧
    Migration.call mig0 (MigDoc.descriptor mdescPlain) "F" =
      Except.ok (mig0, [MigDoc.descriptor mdescPlain]) := by
  have h := c10_descriptor_shadow_key mig0 mdesc0 "F"
  have h2 := c10_descriptor_shadow_key mig0 mdescPlain "F"
  refine ⟨?_, h2.2 (by decide)⟩
  have := h.1 { shape := [5, 1080, 1280] } (by decide)
  simpa using this

/-- Counterexample for claim C1: running the spec's end-to-end
scenario 1 (start with `chunk_size` 5, primary descriptor with shape
`[10, 10]`, two primary event pages of 5 frames each, stop) leaves
`/exchange/data` with 35 rows, not the 7 rows the claim states: the
write loop grows the array by a full `chunk_size` for every event value
and `stop` trims `2 * chunk_size` rows. -/
theorem c1_counterexample :
    (Serializer.run scenario1).1.data.length = 35 ∧
    ¬ (Serializer.run scenario1).1.data.length = 7 := by
  constructor
  · decide
  · decide

/-- Claim C1 as amended: the scenario leaves `(2*5 - 1 - 2) = 7`
chunks, i.e. 35 rows, in `/exchange/data` (each appended event value
grows the array by a full chunk of 5, one leading event is consumed as
the dark reference, and two trailing chunks are trimmed at stop), and
`/exchange/data_dark` ends up holding the unweighted mean of the final
chunk (the white frames — here five broadcast copies of the last frame,
whose mean is that frame), not the dark average of the first frame. -/
theorem c1_amended :
    (Serializer.run scenario1).1.data.length = (2 * 5 - 1 - 2) * 5 ∧
    (Serializer.run scenario1).1.dataDark =
      some (NpVal.arr3 [frameMean (List.replicate 5 (cframe 10))]) ∧
    frameMean (List.replicate 5 (cframe 10)) = cframe 10 ∧
    ¬ (Serializer.run scenario1).1.dataDark =
        some (NpVal.arr2 [colMeans (cframe 1)]) := by
  refine ⟨by decide, rfl, ?_, by decide⟩
  norm_num [frameMean, frameScale, frameAdd, cframe, List.replicate]

/-- Claim C4: on stop, the Serializer takes the last `chunk_size` rows
of `/exchange/data` as the white reference, overwrites
`/exchange/data_dark` with their unweighted mean (superseding whatever
was stored there before), and shrinks `/exchange/data` by exactly
`2 * chunk_size` rows from the tail; and no non-stop document ever
decreases the dataset's row count. -/
theorem c4_stop_trim (s : SState) (c : Nat) (h1 : s.chunkSize = some c)
    (h2 : s.dataAllocated = true) (h3 : 2 * c ≤ s.data.length)
    (h4 : 0 < c) :
    (Serializer.handle s SDoc.stop).1.dataDark =
      some (NpVal.arr3 [frameMean (s.data.drop (s.data.length - c))]) ∧
    (Serializer.handle s SDoc.stop).1.data =
      s.data.take (s.data.length - 2 * c) ∧
    (Serializer.handle s SDoc.stop).1.data.length = s.data.length - 2 * c ∧
    (∀ d : SDoc, d.isStop = false →
      s.data.length ≤ (Serializer.handle s d).1.data.length) := by
  have hc : ¬ c = 0 := Nat.pos_iff_ne_zero.mp h4
  have hlt : ¬ s.data.length < 2 * c := Nat.not_lt.mpr h3
  refine ⟨?_, ?_, ?_, ?_⟩
  · simp [Serializer.handle, Serializer.stop, h1, h2, hlt, tailSlice, hc]
  · simp [Serializer.handle, Serializer.stop, h1, h2, hlt, tailSlice, hc]
  · simp [Serializer.handle, Serializer.stop, h1, h2, hlt, tailSlice, hc]
  · intro d hd
    cases d with
    | start doc => simp [Serializer.handle, Serializer.start]
    | stop => simp [SDoc.isStop] at hd
    | descriptor doc =>
      simp only [Serializer.handle, Serializer.descriptor]
      repeat' split
      all_goals simp
    | event_page doc =>
      simp only [Serializer.handle, Serializer.event_page]
      repeat' split
      all_goals simp

/-- Witness for C4: stopping the concrete mid-run state `sW` (chunk
size 1, three rows) stores the mean of the last row in `data_dark` and
leaves one row. -/
theorem c4_stop_trim_witness :
    (Serializer.handle sW SDoc.stop).1.dataDark =
      some (NpVal.arr3 [frameMean (sW.data.drop (sW.data.length - 1))]) ∧
    (Serializer.handle sW SDoc.stop).1.data.length = sW.data.length - 2 * 1 := by
  have h := c4_stop_trim sW 1 rfl rfl (by decide) (by decide)
  exact ⟨h.1, h.2.2.1⟩

/-- Claim C5 (code bug): a complete run with a primary and a monitor
stream reaches `stop` with buffered theta samples, but `stop` raises
`AttributeError` reading `self._buffered_theta` (the buffer assigned in
`__init__` is `self._buffered_thetas`), so the interpolation is never
performed and `/exchange/theta` — created empty by the monitor
descriptor — is never written (the trim just before the bad read still
happens: one row remains of the three appended). -/
theorem c5_stop_theta_bug :
    (Serializer.run scenario2).2 = some (SerErr.attributeError "_buffered_theta") ∧
    (Serializer.run scenario2).1.theta = some [] ∧
    (Serializer.run scenario2).1.data.length = 1 := by
  refine ⟨by decide, by decide, by decide⟩

/-- Counterexample for claim C8: a primary descriptor declaring
`Andor_image` with shape `[10, 12]` (height 10, width 12) allocates
`data_dark` (and `data_white`) as a 2-D dataset of shape `[12, 10]` —
the declared shape's two entries reversed — not the 3-D
`1 × height × width` shape the claim states. -/
theorem c8_counterexample :
    (Serializer.descriptor SState.init (primaryDescriptorDoc "dX" [10, 12])).1.dataDarkShape = some [12, 10] ∧
    ¬ (Serializer.descriptor SState.init (primaryDescriptorDoc "dX" [10, 12])).1.dataDarkShape = some [1, 10, 12] := by
  constructor
  · decide
  · decide

/-- Claim C8 as amended: on the first primary-role descriptor the
Serializer allocates `/exchange/data` with zero rows (its HDF5 storage
chunking being the hardcoded `(5, *img_shape)`), and allocates
`data_white` and `data_dark` as 2-D single-frame datasets of shape
`(shape[1], shape[0])` — the declared shape's first two entries
reversed, with no leading unit axis — with no initial content; each
subsequent primary event write then grows `/exchange/data` by exactly
`chunk_size` (the chunk length declared in the start document) rows per
event value. -/
theorem c8_amended (s : SState) (a b : Nat) (rest : List Nat) (u : String)
    (h : s.dataAllocated = false) :
    ((Serializer.descriptor s (primaryDescriptorDoc u (a :: b :: rest))).2 = none ∧
     (Serializer.descriptor s (primaryDescriptorDoc u (a :: b :: rest))).1.data = [] ∧
     (Serializer.descriptor s (primaryDescriptorDoc u (a :: b :: rest))).1.dataWhiteShape = some [b, a] ∧
     (Serializer.descriptor s (primaryDescriptorDoc u (a :: b :: rest))).1.dataDarkShape = some [b, a] ∧
     (Serializer.descriptor s (primaryDescriptorDoc u (a :: b :: rest))).1.dataDark = s.dataDark ∧
     (Serializer.descriptor s (primaryDescriptorDoc u (a :: b :: rest))).1.dataChunks = some [5, b, a]) ∧
    (∀ (sp : SState) (cz : Nat) (pg : EventPageDoc),
      sp.chunkSize = some cz → sp.dataAllocated = true →
      sp.descPrimary = some pg.descriptor →
      ¬ sp.descBaseline = some pg.descriptor →
      ¬ lookupCount sp.streamCount pg.descriptor = 0 →
      (Serializer.event_page sp pg).2 = none ∧
      (Serializer.event_page sp pg).1.data.length =
        sp.data.length + cz * pg.andorImages.length) := by
  constructor
  · simp [Serializer.descriptor, primaryDescriptorDoc, h]
  · intro sp cz pg hc hda hp hb hcount
    have hone : ¬ lookupCount (bumpCount sp.streamCount pg.descriptor) pg.descriptor = 1 := by
      rw [lookupCount_bumpCount]
      omega
    constructor
    · simp [Serializer.event_page, hb, hp, hc, hda, hone]
    · simp [Serializer.event_page, hb, hp, hc, hda, hone, appendFrames_length]

/-- Witness for C8 at a concrete descriptor and a concrete non-first
primary batch. -/
theorem c8_amended_witness :
    (Serializer.descriptor SState.init (primaryDescriptorDoc "p9" [10, 12])).1.dataWhiteShape = some [12, 10] ∧
    (Serializer.descriptor SState.init (primaryDescriptorDoc "p9" [10, 12])).1.data = [] ∧
    (Serializer.event_page sp8 s2page).1.data.length =
      sp8.data.length + 2 * s2page.andorImages.length := by
  have h := c8_amended SState.init 10 12 [] "p9" rfl
  exact ⟨h.1.2.2.1, h.1.2.1,
    (h.2 sp8 2 s2page (by decide) (by decide) (by decide) (by decide) (by decide)).2⟩

/-- Claim C9: the first event batch seen for the baseline stream writes
the four scalars `x_ini`, `y_ini`, `z_ini`, `r_ini` from index 0 of the
batch and marks baseline as recorded; once baseline is recorded, a
baseline batch changes nothing except the internal stream counter. -/
theorem c9_baseline_first_wins (s : SState) (doc : EventPageDoc)
    (x y z r : ℚ) (hds : s.descBaseline = some doc.descriptor) :
    (s.baselineAdded = false → s.xIni = none → s.yIni = none →
      s.zIni = none → s.rIni = none →
      doc.zps_sx.head? = some x → doc.zps_sy.head? = some y →
      doc.zps_sz.head? = some z → doc.zps_pi_r.head? = some r →
      Serializer.event_page s doc =
        ({ s with streamCount := bumpCount s.streamCount doc.descriptor,
                  xIni := some x, yIni := some y, zIni := some z,
                  rIni := some r, baselineAdded := true }, none)) ∧
    (s.baselineAdded = true →
      ¬ s.descPrimary = some doc.descriptor →
      ¬ s.descMonitor = some doc.descriptor →
      Serializer.event_page s doc =
        ({ s with streamCount := bumpCount s.streamCount doc.descriptor }, none)) := by
  constructor
  · intro hb hx0 hy0 hz0 hr0 hx hy hz hr
    simp [Serializer.event_page, hds, hb, hx0, hy0, hz0, hr0, hx, hy, hz, hr]
  · intro hb hp hm
    simp [Serializer.event_page, hds, hb, hp, hm]

/-- Witness for C9: the first baseline batch on a fresh state writes
the scalars; the same batch on the recorded state only bumps the
counter. -/
theorem c9_baseline_first_wins_witness :
    Serializer.event_page sBase blPage =
      ({ sBase with streamCount := bumpCount sBase.streamCount blPage.descriptor,
                    xIni := some 11, yIni := some 12, zIni := some 13,
                    rIni := some 14, baselineAdded := true }, none) ∧
    Serializer.event_page sBaseDone blPage =
      ({ sBaseDone with streamCount := bumpCount sBaseDone.streamCount blPage.descriptor }, none) := by
  have h1 := c9_baseline_first_wins sBase blPage 11 12 13 14 rfl
  have h2 := c9_baseline_first_wins sBaseDone blPage 11 12 13 14 rfl
  exact ⟨h1.1 rfl rfl rfl rfl rfl rfl rfl rfl rfl,
    h2.2 rfl (by decide) (by decide)⟩

/-- Counterexample for claim C3: an event-batch (event_page) document
is not annotated and forwarded by the Migration — `Migration.event_page`
raises `NotImplementedError`, so the batch is never forwarded at all. -/
theorem c3_counterexample :
    Migration.call mig0 (MigDoc.event_page pgX) "F" =
      Except.error MigErr.notImplemented ∧
    ¬ Migration.call mig0 (MigDoc.event_page pgX) "F" =
        Except.ok (mig0, [MigDoc.event_page pgX]) := by
  constructor
  · rfl
  · simp [Migration.call, Migration.event_page]

/-- Claim C3 as amended: for every (single) event document whose
tracked image field is present and whose datum id has been mapped, the
Migration stores the shadow datum id under the timestamp field — adding
exactly one new field to `data` (and, when a `filled` mapping is
present, additionally marking the timestamp field unfilled there) while
leaving every other `data` entry unchanged — and forwards the mutated
document; event-batch (event_page) documents, however, are not handled:
they fail with `NotImplementedError` and nothing is forwarded. -/
theorem c3_event_shadow_field (s : MigState) (doc : EventDoc)
    (d nd fresh : String) (h1 : dictGet doc.data s.imageField = some d)
    (h2 : dictGet s.newDatumIds d = some nd) :
    ((doc.filled = none →
      Migration.call s (MigDoc.event doc) fresh =
        Except.ok (s, [MigDoc.event { doc with data := dictSet doc.data s.timestampField nd }])) ∧
     (∀ f, doc.filled = some f →
      Migration.call s (MigDoc.event doc) fresh =
        Except.ok (s, [MigDoc.event { doc with data := dictSet doc.data s.timestampField nd, filled := some (dictSet f s.timestampField false) }])) ∧
     dictGet (dictSet doc.data s.timestampField nd) s.timestampField = some nd ∧
     (dictGet doc.data s.timestampField = none →
       (dictSet doc.data s.timestampField nd).length = doc.data.length + 1) ∧
     (∀ k, ¬ k = s.timestampField →
       dictGet (dictSet doc.data s.timestampField nd) k = dictGet doc.data k)) ∧
    (∀ pg : MEventPageDoc,
      Migration.call s (MigDoc.event_page pg) fresh =
        Except.error MigErr.notImplemented) := by
  refine ⟨⟨?_, ?_, dictGet_dictSet_self _ _ _, ?_, ?_⟩, ?_⟩
  · intro hf
    simp [Migration.call, Migration.event, h1, h2, hf]
  · intro f hf
    simp [Migration.call, Migration.event, h1, h2, hf]
  · intro habs
    exact length_dictSet_of_absent _ _ _ habs
  · intro k hk
    exact dictGet_dictSet_ne _ _ _ _ hk
  · intro pg
    simp [Migration.call, Migration.event_page]

/-- Witness for C3 at a concrete event (carrying a `filled` mapping)
and a concrete event batch. -/
theorem c3_event_shadow_field_witness :
    Migration.call mig0 (MigDoc.event ev0) "F" =
      Except.ok (mig0, [MigDoc.event { ev0 with data := dictSet ev0.data mig0.timestampField "U/0", filled := some (dictSet [("Andor_image", false)] mig0.timestampField false) }]) ∧
    dictGet (dictSet ev0.data mig0.timestampField "U/0") mig0.timestampField =
      some "U/0" ∧
    (dictSet ev0.data mig0.timestampField "U/0").length = ev0.data.length + 1 ∧
    Migration.call mig0 (MigDoc.event_page pgX) "F" =
      Except.error MigErr.notImplemented := by
  have h := c3_event_shadow_field mig0 ev0 "abc/0" "U/0" "F" (by decide) (by decide)
  exact ⟨h.1.2.1 [("Andor_image", false)] rfl, h.1.2.2.1,
    h.1.2.2.2.1 (by decide), h.2 pgX⟩
